import Mathlib

/-!
Shallow embedding of the SBI bank-statement parser
(`parse_sbi_statement.py` and `api.py`) and proofs about its
specification claims.

The Python program is embedded as executable Lean functions:

* per-field text normalisation (`parse_amount`, `is_date`,
  `clean_description`, `extract_ref_number`),
* row classification and extraction (`processRow`, `extractTxns`,
  `parse_pdf`),
* content fingerprinting (`compute_hash`, backed by a full SHA-256
  implementation over `Nat`),
* the merge loop of `main` / `parse_and_save` (`merge_step`,
  `merge_new`),
* sorting, id assignment and CSV persistence (`sort_key`,
  `write_master_records`, `csvRender`, `write_master_csv`,
  `load_existing_csv`),
* the whole empty-ledger pipeline (`run_main_empty`).

Python dict-shaped transaction records are embedded as the fixed-shape
record `Rec`; dict keys that are absent at some pipeline stage
(`txn_id`, `imported_at`, `hash`, `_parse_seq`) are `Option`s or the
dynamic value type `PyVal`.  Machine-level details (files, pdfplumber)
are modelled as explicit data (`PdfDoc`, `FileSys`, `CsvFile`).
-/

set_option maxRecDepth 100000

/-! ## Python string primitives -/

/-- Characters stripped by Python `str.strip()` and matched by the
regex class `\s` (whitespace per `str.isspace`). -/
def pySpace (c : Char) : Bool :=
  let n := c.toNat
  (9 ≤ n && n ≤ 13) || (28 ≤ n && n ≤ 31) || n = 32 || n = 0x85 || n = 0xa0 ||
    n = 0x1680 || (0x2000 ≤ n && n ≤ 0x200a) || n = 0x2028 || n = 0x2029 ||
    n = 0x202f || n = 0x205f || n = 0x3000

/-- Python `str.strip()` on a character list. -/
def pyStripL (cs : List Char) : List Char :=
  ((cs.dropWhile pySpace).reverse.dropWhile pySpace).reverse

/-- Python `str.strip()`. -/
def pyStrip (s : String) : String := String.mk (pyStripL s.data)

/-- ASCII decimal digit test (`[0-9]`). -/
def isDig (c : Char) : Bool := 48 ≤ c.toNat && c.toNat ≤ 57

/-- Numeric value of an ASCII digit. -/
def digVal (c : Char) : Nat := c.toNat - 48

/-- Value of a list of ASCII digits, most significant first. -/
def digitsVal (cs : List Char) : Nat := cs.foldl (fun a c => a * 10 + digVal c) 0

/-- ASCII lower-casing of one character (enough for the ASCII markers
and format letters the program compares case-insensitively). -/
def asciiLowerChar (c : Char) : Char :=
  if 'A' ≤ c && c ≤ 'Z' then Char.ofNat (c.toNat + 32) else c

/-- ASCII lower-casing of a character list. -/
def asciiLower (cs : List Char) : List Char := cs.map asciiLowerChar

/-- Whether `pre` is an initial segment of `cs`. -/
def startsWithSeq : List Char → List Char → Bool
  | [], _ => true
  | _ :: _, [] => false
  | p :: ps, c :: cs => p = c && startsWithSeq ps cs

/-- Python `needle in haystack` substring containment. -/
def containsSeq (needle : List Char) : List Char → Bool
  | [] => needle.isEmpty
  | c :: cs => startsWithSeq needle (c :: cs) || containsSeq needle cs

/-- Does some suffix of the list satisfy `p`?  Used to model
`re.search`, which tries every start position left to right. -/
def existsPos (p : List Char → Bool) : List Char → Bool
  | [] => p []
  | c :: cs => p (c :: cs) || existsPos p cs

/-- Python `str.split(sep)` for a one-character separator, on
character lists (`"".split` gives `[""]`, like Python). -/
def splitOnCharAux (sep : Char) (acc : List Char) : List Char → List (List Char)
  | [] => [acc.reverse]
  | c :: cs =>
    if c = sep then acc.reverse :: splitOnCharAux sep [] cs
    else splitOnCharAux sep (c :: acc) cs

/-- Python `str.split(sep)` for a one-character separator. -/
def splitOnChar (sep : Char) (cs : List Char) : List (List Char) :=
  splitOnCharAux sep [] cs

/-- Scan a digit run continuing CPython numeric-literal underscore
rules: the scanner is positioned just after a digit; an underscore is
consumed only when a digit follows it.  Returns the number of digits
consumed and the rest. -/
def scanAfterDigit : List Char → Nat × List Char
  | '_' :: d :: rest =>
    if isDig d then
      let (n, r) := scanAfterDigit rest
      (n + 1, r)
    else (0, '_' :: d :: rest)
  | c :: rest =>
    if isDig c then
      let (n, r) := scanAfterDigit rest
      (n + 1, r)
    else (0, c :: rest)
  | [] => (0, [])

/-- Scan a CPython `digitpart` (`digit (["_"] digit)*`).  Returns the
number of digits consumed (0 when the input does not start with a
digit) and the unconsumed rest. -/
def scanDigits : List Char → Nat × List Char
  | c :: rest =>
    if isDig c then
      let (n, r) := scanAfterDigit rest
      (n + 1, r)
    else (0, c :: rest)
  | [] => (0, [])

/-- CPython unsigned float syntax: `digitpart ["." [digitpart]]` or
`"." digitpart`, with an optional exponent, consuming the whole
input. -/
def floatNumber (cs : List Char) : Bool :=
  let (ni, r1) := scanDigits cs
  let dotted := match r1 with
    | '.' :: _ => true
    | _ => false
  let (nf, r2) := if dotted then scanDigits r1.tail else (0, r1)
  if ni + nf = 0 then false
  else
    match r2 with
    | [] => true
    | e :: rest =>
      if e = 'e' || e = 'E' then
        let rest2 := match rest with
          | s :: t => if s = '+' || s = '-' then t else s :: t
          | [] => []
        let (ne, r3) := scanDigits rest2
        ne > 0 && r3.isEmpty
      else false

/-- CPython unsigned float body: `inf`, `infinity`, `nan`
(case-insensitive) or a number. -/
def floatUnsigned (cs : List Char) : Bool :=
  let low := asciiLower cs
  low = "inf".data || low = "infinity".data || low = "nan".data || floatNumber cs

/-- CPython float body after stripping: optional sign then unsigned
float. -/
def floatSigned : List Char → Bool
  | [] => false
  | c :: rest =>
    if c = '+' || c = '-' then floatUnsigned rest else floatUnsigned (c :: rest)

/-- Does `float(s)` succeed in CPython (ASCII digits)? -/
def pyFloatOk (s : String) : Bool := floatSigned (pyStripL s.data)

/-- Python `int(s)` for a base-10 string: `Option.none` models
`ValueError`. -/
def pyIntOfString (s : String) : Option Int :=
  let t := pyStripL s.data
  let signNeg : Bool := match t with
    | '-' :: _ => true
    | _ => false
  let u : List Char := match t with
    | '+' :: r => r
    | '-' :: r => r
    | r => r
  let (n, rest) := scanDigits u
  if n = 0 || !rest.isEmpty then Option.none
  else
    let v : Int := Int.ofNat (digitsVal ((u.take (u.length - rest.length)).filter isDig))
    some (if signNeg then -v else v)

/-! ## Field normalisation (`parse_amount`, `is_date`, description
helpers) — `parse_sbi_statement.py` lines 67-130 -/

/-- `parse_amount` (lines 67-75): empty or a lone `-` is absent;
otherwise strip, drop thousands separators, and keep the text only if
`float` accepts it. -/
def parse_amount (v : String) : String :=
  if v = "" || pyStrip v = "-" then ""
  else
    let cleaned := String.mk ((pyStripL v.data).filter (fun c => c ≠ ','))
    if pyFloatOk cleaned then cleaned else ""

/-- `parse_amount` applied to a pdfplumber table cell, which may be
`None` (falsy, hence absent). -/
def parse_amount_cell : Option String → String
  | Option.none => ""
  | some s => parse_amount s

/-- Gregorian leap year, as `datetime` uses. -/
def isLeap (y : Nat) : Bool := y % 4 = 0 && (y % 100 ≠ 0 || y % 400 = 0)

/-- Days in a month, as `datetime` validates. -/
def daysInMonth (m y : Nat) : Nat :=
  match m with
  | 1 => 31 | 2 => if isLeap y then 29 else 28 | 3 => 31 | 4 => 30
  | 5 => 31 | 6 => 30 | 7 => 31 | 8 => 31 | 9 => 30 | 10 => 31
  | 11 => 30 | 12 => 31 | _ => 0

/-- The CPython `strptime` field regex for `%d` / `%m`: one digit
`1-9`, or two digits whose value is between 1 and `maxV`. -/
def fieldOk12 (maxV : Nat) : List Char → Bool
  | [c] => isDig c && digVal c ≥ 1
  | [c1, c2] =>
    isDig c1 && isDig c2 && 1 ≤ 10 * digVal c1 + digVal c2 &&
      10 * digVal c1 + digVal c2 ≤ maxV
  | _ => false

/-- The CPython `strptime` field regex for `%Y`: exactly four
digits. -/
def yearFieldOk (cs : List Char) : Bool := cs.length = 4 && cs.all isDig

/-- `datetime.strptime(text, "%d/%m/%Y")`: `some (d, m, y)` on
success, `Option.none` on `ValueError`.  The whole input must match,
and `datetime` additionally requires `1 ≤ year` and a valid day of
month. -/
def strptimeDMY (cs : List Char) : Option (Nat × Nat × Nat) :=
  match splitOnChar '/' cs with
  | [dp, mp, yp] =>
    if fieldOk12 31 dp && fieldOk12 12 mp && yearFieldOk yp then
      let d := digitsVal dp
      let m := digitsVal mp
      let y := digitsVal yp
      if 1 ≤ y && d ≤ daysInMonth m y then some (d, m, y) else Option.none
    else Option.none
  | _ => Option.none

/-- `is_date` (lines 78-86) on a table cell: falsy cells are not
dates; otherwise strict `DD/MM/YYYY` parse of the stripped text. -/
def is_date : Option String → Bool
  | Option.none => false
  | some s => if s = "" then false else (strptimeDMY (pyStripL s.data)).isSome

/-- `is_transaction_row` (lines 88-91): at least `MIN_COLS = 7` cells
and a parseable date in column 0. -/
def is_transaction_row (row : List (Option String)) : Bool :=
  !row.isEmpty && decide (7 ≤ row.length) && is_date (row.getD 0 Option.none)

/-- `is_summary_row` (lines 94-98): the first cell (falsy becomes
`""`) contains one of the summary markers. -/
def is_summary_row : List (Option String) → Bool
  | [] => false
  | c :: _ =>
    let first := c.getD ""
    containsSeq "Statement Summary".data first.data ||
      containsSeq "Brought Forward".data first.data

/-- One pass of `re.sub(r"\s+", " ", s)`: every maximal whitespace
run becomes a single space.  `prevSpace` records whether the previous
character belonged to a run already replaced. -/
def collapseWsAux (prevSpace : Bool) : List Char → List Char
  | [] => []
  | c :: rest =>
    if pySpace c then
      if prevSpace then collapseWsAux true rest
      else ' ' :: collapseWsAux true rest
    else c :: collapseWsAux false rest

/-- `clean_description` (lines 126-130): newlines become `" | "`,
whitespace runs collapse, then strip. -/
def clean_description (desc : String) : String :=
  if desc = "" then ""
  else
    let replaced := (desc.data.map (fun c => if c = '\n' then [' ', '|', ' '] else [c])).flatten
    pyStrip (String.mk (collapseWsAux false replaced))

/-- Word character for the regex boundary `\b` (ASCII `\w`). -/
def isWordChar (c : Char) : Bool :=
  isDig c || ('a' ≤ c && c ≤ 'z') || ('A' ≤ c && c ≤ 'Z') || c = '_'

/-- `re.match(r"^(\d{10,13})\b", line)`: the leading digit run must
have length 10-13 (a longer run makes every backtracking attempt end
before a digit, so the match fails) and the following character, if
any, must not be a word character. -/
def refMatch (line : List Char) : Option String :=
  let ds := line.takeWhile isDig
  let k := ds.length
  if 10 ≤ k && k ≤ 13 then
    match line.drop k with
    | [] => some (String.mk ds)
    | c :: _ => if isWordChar c then Option.none else some (String.mk ds)
  else Option.none

/-- First line (stripped) of the raw description whose leading token
matches the reference-number pattern. -/
def firstRefLine : List (List Char) → String
  | [] => ""
  | line :: rest =>
    match refMatch (pyStripL line) with
    | some r => r
    | Option.none => firstRefLine rest

/-- `extract_ref_number` (lines 116-123): scan the raw (pre-cleaning)
description lines for the first 10-13 digit leading token. -/
def extract_ref_number (desc : String) : String :=
  if desc = "" then "" else firstRefLine (splitOnChar '\n' desc.data)

/-! ## SHA-256 over `Nat` (for `hashlib.sha256(...).hexdigest()`) -/

/-- Truncation to a 32-bit word. -/
def w32 (n : Nat) : Nat := n % 4294967296

/-- 32-bit right rotation. -/
def rotr32 (r x : Nat) : Nat := w32 ((x >>> r) ||| (x <<< (32 - r)))

/-- SHA-256 choice function. -/
def shaCh (x y z : Nat) : Nat := (x &&& y) ^^^ ((x ^^^ 4294967295) &&& z)

/-- SHA-256 majority function. -/
def shaMaj (x y z : Nat) : Nat := (x &&& y) ^^^ (x &&& z) ^^^ (y &&& z)

/-- SHA-256 big sigma 0. -/
def bigSigma0 (x : Nat) : Nat := rotr32 2 x ^^^ rotr32 13 x ^^^ rotr32 22 x

/-- SHA-256 big sigma 1. -/
def bigSigma1 (x : Nat) : Nat := rotr32 6 x ^^^ rotr32 11 x ^^^ rotr32 25 x

/-- SHA-256 small sigma 0. -/
def smallSigma0 (x : Nat) : Nat := rotr32 7 x ^^^ rotr32 18 x ^^^ (x >>> 3)

/-- SHA-256 small sigma 1. -/
def smallSigma1 (x : Nat) : Nat := rotr32 17 x ^^^ rotr32 19 x ^^^ (x >>> 10)

/-- SHA-256 round constants. -/
def shaK : List Nat :=
  [1116352408, 1899447441, 3049323471, 3921009573, 961987163, 1508970993,
   2453635748, 2870763221, 3624381080, 310598401, 607225278, 1426881987,
   1925078388, 2162078206, 2614888103, 3248222580, 3835390401, 4022224774,
   264347078, 604807628, 770255983, 1249150122, 1555081692, 1996064986,
   2554220882, 2821834349, 2952996808, 3210313671, 3336571891, 3584528711,
   113926993, 338241895, 666307205, 773529912, 1294757372, 1396182291,
   1695183700, 1986661051, 2177026350, 2456956037, 2730485921, 2820302411,
   3259730800, 3345764771, 3516065817, 3600352804, 4094571909, 275423344,
   430227734, 506948616, 659060556, 883997877, 958139571, 1322822218,
   1537002063, 1747873779, 1955562222, 2024104815, 2227730452, 2361852424,
   2428436474, 2756734187, 3204031479, 3329325298]

/-- SHA-256 initial hash state. -/
def shaH0 : List Nat :=
  [1779033703, 3144134277, 1013904242, 2773480762,
   1359893119, 2600822924, 528734635, 1541459225]

/-- SHA-256 padding: append `0x80`, zeros, and the 8-byte big-endian
bit length, reaching a multiple of 64 bytes. -/
def shaPad (msg : List Nat) : List Nat :=
  let len := msg.length
  let zeros := (119 - (len % 64)) % 64
  let bitLen := 8 * len
  msg ++ [0x80] ++ List.replicate zeros 0 ++
    [(bitLen >>> 56) % 256, (bitLen >>> 48) % 256, (bitLen >>> 40) % 256, (bitLen >>> 32) % 256,
     (bitLen >>> 24) % 256, (bitLen >>> 16) % 256, (bitLen >>> 8) % 256, bitLen % 256]

/-- Big-endian grouping of bytes into 32-bit words. -/
def bytesToWords : List Nat → List Nat
  | b0 :: b1 :: b2 :: b3 :: rest =>
    ((b0 <<< 24) + (b1 <<< 16) + (b2 <<< 8) + b3) :: bytesToWords rest
  | _ => []

/-- Fuelled grouping of a word list into 16-word blocks. -/
def wordsToBlocksFuel : Nat → List Nat → List (List Nat)
  | 0, _ => []
  | _, [] => []
  | fuel + 1, ws => ws.take 16 :: wordsToBlocksFuel fuel (ws.drop 16)

/-- Grouping of a word list into 16-word blocks. -/
def wordsToBlocks (ws : List Nat) : List (List Nat) := wordsToBlocksFuel ws.length ws

/-- Extension of a 16-word block to the 64-word message schedule. -/
def shaSchedule (block : List Nat) : List Nat :=
  (List.range 48).foldl
    (fun ws _ =>
      let n := ws.length
      ws ++ [w32 (smallSigma1 (ws.getD (n - 2) 0) + ws.getD (n - 7) 0 +
                  smallSigma0 (ws.getD (n - 15) 0) + ws.getD (n - 16) 0)])
    block

/-- One SHA-256 compression round on the working variables. -/
def shaRound (k w : Nat) :
    Nat × Nat × Nat × Nat × Nat × Nat × Nat × Nat →
    Nat × Nat × Nat × Nat × Nat × Nat × Nat × Nat
  | (a, b, c, d, e, f, g, h) =>
    let t1 := w32 (h + bigSigma1 e + shaCh e f g + k + w)
    let t2 := w32 (bigSigma0 a + shaMaj a b c)
    (w32 (t1 + t2), a, b, c, w32 (d + t1), e, f, g)

/-- SHA-256 compression of one block into the hash state. -/
def shaCompress (hs : List Nat) (block : List Nat) : List Nat :=
  let ws := shaSchedule block
  let init : Nat × Nat × Nat × Nat × Nat × Nat × Nat × Nat :=
    (hs.getD 0 0, hs.getD 1 0, hs.getD 2 0, hs.getD 3 0,
     hs.getD 4 0, hs.getD 5 0, hs.getD 6 0, hs.getD 7 0)
  let r := (List.range 64).foldl (fun st i => shaRound (shaK.getD i 0) (ws.getD i 0) st) init
  match r with
  | (a, b, c, d, e, f, g, h) =>
    [w32 (hs.getD 0 0 + a), w32 (hs.getD 1 0 + b), w32 (hs.getD 2 0 + c), w32 (hs.getD 3 0 + d),
     w32 (hs.getD 4 0 + e), w32 (hs.getD 5 0 + f), w32 (hs.getD 6 0 + g), w32 (hs.getD 7 0 + h)]

/-- SHA-256 digest of a byte string, as eight 32-bit words. -/
def sha256Words (msg : List Nat) : List Nat :=
  (wordsToBlocks (bytesToWords (shaPad msg))).foldl shaCompress shaH0

/-- Lower-case hex digit. -/
def hexDigit (n : Nat) : Char := if n < 10 then Char.ofNat (48 + n) else Char.ofNat (87 + n)

/-- Eight hex digits of a 32-bit word, most significant first. -/
def wordToHex (w : Nat) : List Char :=
  [hexDigit ((w >>> 28) % 16), hexDigit ((w >>> 24) % 16), hexDigit ((w >>> 20) % 16),
   hexDigit ((w >>> 16) % 16), hexDigit ((w >>> 12) % 16), hexDigit ((w >>> 8) % 16),
   hexDigit ((w >>> 4) % 16), hexDigit (w % 16)]

/-- `hashlib.sha256(msg).hexdigest()` as a character list. -/
def sha256HexChars (msg : List Nat) : List Char :=
  ((sha256Words msg).map wordToHex).flatten

/-- UTF-8 encoding of one character, as byte values (`str.encode`). -/
def utf8EncodeChar (c : Char) : List Nat :=
  let n := c.toNat
  if n < 128 then [n]
  else if n < 2048 then [192 + (n >>> 6), 128 + (n &&& 63)]
  else if n < 65536 then [224 + (n >>> 12), 128 + ((n >>> 6) &&& 63), 128 + (n &&& 63)]
  else [240 + (n >>> 18), 128 + ((n >>> 12) &&& 63), 128 + ((n >>> 6) &&& 63), 128 + (n &&& 63)]

/-- Python `s.encode()` (UTF-8 bytes). -/
def utf8Bytes (s : String) : List Nat := (s.data.map utf8EncodeChar).flatten

/-! ## Transaction records -/

/-- Dynamic Python value stored under a dict key that the program
writes both ints and strings to (`txn_id`); `PyVal.none` models an
absent key. -/
inductive PyVal
  | int (n : Int)
  | str (s : String)
  | none
deriving DecidableEq, Repr, Inhabited

/-- Fixed-shape embedding of the transaction dict.  String fields are
always present once a record exists; `txn_id`, `imported_at`, `hash`
and `parse_seq` (`_parse_seq`) start absent and are stamped by later
pipeline stages. -/
structure Rec where
  value_date : String
  post_date : String
  details : String
  ref_no : String
  debit : String
  credit : String
  balance : String
  txn_type : String
  account_source : String
  imported_at : Option String
  hash : Option String
  txn_id : PyVal
  parse_seq : Option Int
deriving DecidableEq, Repr, Inhabited

/-- `compute_hash` (lines 218-225): first 32 hex characters of the
SHA-256 digest of the five financial fields joined by `"|"`. -/
def compute_hash (t : Rec) : String :=
  String.mk ((sha256HexChars (utf8Bytes (String.intercalate "|"
    [t.post_date, t.value_date, t.debit, t.credit, t.balance]))).take 32)

/-! ## Document extraction (`parse_pdf`, lines 137-211) -/

/-- The per-row body of the extraction loop (lines 177-209): drop
falsy rows, summary rows and non-transaction rows; normalise fields;
drop rows whose debit, credit and balance all normalise to absent;
otherwise build the record (its `_parse_seq` is stamped afterwards by
the enumeration in `extractTxns`). -/
def processRow (row : List (Option String)) : Option Rec :=
  if row.isEmpty then Option.none
  else if is_summary_row row then Option.none
  else if !is_transaction_row row then Option.none
  else
    let desc_raw := (row.getD 2 Option.none).getD ""
    let post_date := pyStrip ((row.getD 0 Option.none).getD "")
    let value_date := pyStrip ((row.getD 1 Option.none).getD "")
    let debit := parse_amount_cell (row.getD 4 Option.none)
    let credit := parse_amount_cell (row.getD 5 Option.none)
    let balance := parse_amount_cell (row.getD 6 Option.none)
    if debit = "" && credit = "" && balance = "" then Option.none
    else
      some
        { value_date := value_date
          post_date := post_date
          details := clean_description desc_raw
          ref_no := extract_ref_number desc_raw
          debit := debit
          credit := credit
          balance := balance
          txn_type := if debit ≠ "" then "debit" else if credit ≠ "" then "credit" else ""
          account_source := "sbi_email"
          imported_at := Option.none
          hash := Option.none
          txn_id := PyVal.none
          parse_seq := Option.none }

/-- A pdfplumber page: `extract_text()` may return `None`, and
`extract_tables()` yields tables, which are lists of rows of optional
cell strings. -/
structure Page where
  text : Option String
  tables : List (List (List (Option String)))
deriving DecidableEq, Repr, Inhabited

/-- A decrypted pdfplumber document. -/
structure PdfDoc where
  pages : List Page
deriving DecidableEq, Repr, Inhabited

/-- Stamp consecutive `_parse_seq` values starting at `i` (the `seq`
counter of the extraction loop). -/
def withSeqFrom (i : Int) : List Rec → List Rec
  | [] => []
  | t :: rest => { t with parse_seq := some i } :: withSeqFrom (i + 1) rest

/-- The full page/table/row walk of `parse_pdf` (lines 170-209).  The
`if not tables` / `if not table` guards only skip empty lists, which
contribute nothing to the flattened row sequence. -/
def extractTxns (doc : PdfDoc) : List Rec :=
  withSeqFrom 0
    (((doc.pages.map (fun p => p.tables.flatten)).flatten).filterMap processRow)

/-- Case-insensitive literal match (the literal is given lower-case);
returns the unconsumed rest. -/
def matchCI : List Char → List Char → Option (List Char)
  | [], cs => some cs
  | _ :: _, [] => Option.none
  | l :: ls, c :: cs => if asciiLowerChar c = l then matchCI ls cs else Option.none

/-- Regex `\s+`: at least one whitespace character, consumed
greedily. -/
def spaces1 : List Char → Option (List Char)
  | c :: rest => if pySpace c then some (rest.dropWhile pySpace) else Option.none
  | [] => Option.none

/-- Exactly `n` ASCII digits; returns them and the rest. -/
def takeDigits : Nat → List Char → Option (List Char × List Char)
  | 0, cs => some ([], cs)
  | _ + 1, [] => Option.none
  | n + 1, c :: rest =>
    if isDig c then (takeDigits n rest).map (fun p => (c :: p.1, p.2)) else Option.none

/-- Regex `\d{2}-\d{2}-\d{4}`: a statement-period date; returns the
matched text and the rest. -/
def matchDatePat (cs : List Char) : Option (List Char × List Char) :=
  (takeDigits 2 cs).bind fun p1 =>
    match p1.2 with
    | '-' :: r1 =>
      (takeDigits 2 r1).bind fun p2 =>
        match p2.2 with
        | '-' :: r2 =>
          (takeDigits 4 r2).map fun p3 =>
            (p1.1 ++ ['-'] ++ p2.1 ++ ['-'] ++ p3.1, p3.2)
        | _ => Option.none
    | _ => Option.none

/-- The statement-period regex
`Statement\s+From\s*:\s*(\d{2}-\d{2}-\d{4})\s+to\s+(\d{2}-\d{2}-\d{4})`
(case-insensitive) anchored at the current position. -/
def periodAt (cs : List Char) : Option (String × String) :=
  (matchCI "statement".data cs).bind fun r1 =>
    (spaces1 r1).bind fun r2 =>
      (matchCI "from".data r2).bind fun r3 =>
        match r3.dropWhile pySpace with
        | ':' :: r4 =>
          (matchDatePat (r4.dropWhile pySpace)).bind fun d1 =>
            (spaces1 d1.2).bind fun r5 =>
              (matchCI "to".data r5).bind fun r6 =>
                (spaces1 r6).bind fun r7 =>
                  (matchDatePat r7).map fun d2 => (String.mk d1.1, String.mk d2.1)
        | _ => Option.none

/-- Leftmost match of the statement-period regex (`re.search`). -/
def firstPeriod : List Char → Option (String × String)
  | [] => Option.none
  | c :: cs =>
    match periodAt (c :: cs) with
    | some r => some r
    | Option.none => firstPeriod cs

/-- `extract_statement_period` (lines 101-109) applied to the first
page text. -/
def extract_statement_period (text : String) : Option String × Option String :=
  match firstPeriod text.data with
  | some r => (some r.1, some r.2)
  | Option.none => (Option.none, Option.none)

/-- Position-anchored match of `Account\s*Number` on lower-cased
text. -/
def accountNumberAt (cs : List Char) : Bool :=
  startsWithSeq "account".data cs &&
    startsWithSeq "number".data ((cs.drop 7).dropWhile pySpace)

/-- The issuer check `re.search(r"State Bank|SBI|Account\s*Number",
text, re.IGNORECASE)` (line 161). -/
def hasSbiMarker (text : String) : Bool :=
  let low := asciiLower text.data
  containsSeq "state bank".data low || containsSeq "sbi".data low ||
    existsPos accountNumberAt low

/-- The distinct failures `parse_pdf` raises.  In the source all four
are `RuntimeError`s distinguished by their message; the constructors
correspond to the four raise sites (wrong password, re-raised open
failure, zero pages, missing issuer marker). -/
inductive PdfErr
  | auth (msg : String)
  | reraise (msg : String)
  | emptyDoc (msg : String)
  | formatMismatch (msg : String)
deriving DecidableEq, Repr

/-- Does the lower-cased open-failure message look like a credential
failure (line 148)? -/
def passwordLike (e : String) : Bool :=
  let el := asciiLower e.data
  containsSeq "password".data el || containsSeq "decrypt".data el ||
    containsSeq "encrypted".data el

/-- The credential-failure message of lines 149-152 (its apostrophe
is spelled via `Char.ofNat 39`). -/
def authMsg (pdfPath : String) : String :=
  "Wrong password or encrypted PDF: " ++ pdfPath ++
    "\n  Check PDF_PASSWORD in your .env file."

/-- `parse_pdf` (lines 137-211).  `openExc = some e` models
`pdfplumber.open` raising an exception with text `e`; the document
contents are only reachable when opening succeeded. -/
def parse_pdf (pdfPath : String) (openExc : Option String) (doc : PdfDoc) :
    Except PdfErr (List Rec × Option String × Option String × Nat) :=
  match openExc with
  | some e =>
    if passwordLike e then Except.error (PdfErr.auth (authMsg pdfPath))
    else Except.error (PdfErr.reraise e)
  | Option.none =>
    match doc.pages with
    | [] => Except.error (PdfErr.emptyDoc ("PDF has no pages: " ++ pdfPath))
    | p0 :: _ =>
      let firstText := p0.text.getD ""
      if !hasSbiMarker firstText then
        Except.error (PdfErr.formatMismatch
          ("This doesn" ++ String.mk [Char.ofNat 39] ++ "t look like an SBI statement: " ++
            pdfPath ++ "\n  First page has no SBI/State Bank header."))
      else
        let period := extract_statement_period firstText
        Except.ok (extractTxns doc, period.1, period.2, doc.pages.length)

/-! ## Merge loop (`main` lines 336-349, `parse_and_save` lines
141-153 — the two loops are textually identical) -/

/-- Accumulator of the merge loop: accepted-new records, the known
fingerprint set (as a list used only through membership), and the
duplicate counter. -/
structure MergeState where
  new_txns : List Rec
  hashes : List String
  dup_count : Nat
deriving DecidableEq, Repr

/-- One iteration of the merge loop: a known fingerprint counts as a
duplicate and is dropped; otherwise the record is stamped with its
hash, the import timestamp `now`, a placeholder `txn_id = 0` and the
offset sequence number, and accepted.  (The source reads
`txn["_parse_seq"]`, which every extracted record has; on an absent
key it would raise, which this embedding leaves the field absent
for.) -/
def merge_step (now : String) (seq_offset : Int) (st : MergeState) (txn : Rec) : MergeState :=
  let h := compute_hash txn
  if st.hashes.contains h then { st with dup_count := st.dup_count + 1 }
  else
    { new_txns := st.new_txns ++
        [{ txn with
            hash := some h
            imported_at := some now
            txn_id := PyVal.int 0
            parse_seq := txn.parse_seq.map (· + seq_offset) }]
      hashes := h :: st.hashes
      dup_count := st.dup_count }

/-- The merge loop over one document's extracted records, starting
from the known fingerprints `hashes`. -/
def merge_new (now : String) (seq_offset : Int) (hashes : List String) (txns : List Rec) :
    MergeState :=
  txns.foldl (merge_step now seq_offset) ⟨[], hashes, 0⟩

/-! ## Sorting and id assignment (`parse_date_for_sort`, `sort_key`,
`write_master_csv` lines 228-279) -/

/-- Sort key of a `datetime` that `parse_date_for_sort` can produce,
encoded as a `Nat`: a parsed `DD/MM/YYYY` becomes
`y * 10000 + m * 100 + d` (all parsed dates carry time 00:00, so this
encoding is strictly order-preserving), and `datetime.max` — the
value returned for an unparseable date — becomes `100000000`, which
is larger than every parseable encoding (year ≤ 9999). -/
def parse_date_for_sort (s : String) : Nat :=
  match strptimeDMY s.data with
  | some (d, m, y) => y * 10000 + m * 100 + d
  | Option.none => 100000000

/-- The tie-break component of `sort_key` (lines 237-242):
`_parse_seq` when present, else `int(txn_id)` with failures and
absence mapped to 0. -/
def sortSeq (t : Rec) : Int :=
  match t.parse_seq with
  | some n => n
  | Option.none =>
    match t.txn_id with
    | PyVal.int n => n
    | PyVal.str s => (pyIntOfString s).getD 0
    | PyVal.none => 0

/-- `sort_key` (lines 235-243): date ascending, then row order. -/
def sort_key (t : Rec) : Nat × Int := (parse_date_for_sort t.post_date, sortSeq t)

/-- Python tuple comparison on sort keys, as a Bool relation for the
stable sort. -/
def keyLE (a b : Rec) : Bool :=
  decide ((sort_key a).1 < (sort_key b).1 ∨
    ((sort_key a).1 = (sort_key b).1 ∧ (sort_key a).2 ≤ (sort_key b).2))

/-- The `txn_id` reassignment of `write_master_csv` (lines 266-267):
`enumerate(transactions, start=1)` over the sorted list. -/
def assignIdsFrom (i : Int) : List Rec → List Rec
  | [] => []
  | t :: rest => { t with txn_id := PyVal.int i } :: assignIdsFrom (i + 1) rest

/-- The record-level part of `write_master_csv` (lines 265-267):
stable sort by `sort_key` (Python list.sort is stable, and a stable
sort by a total preorder is unique, so Lean's stable `mergeSort`
computes the same list), then dense ids from 1. -/
def write_master_records (txns : List Rec) : List Rec :=
  assignIdsFrom 1 (txns.mergeSort keyLE)

/-! ## CSV serialisation (`csv.DictWriter` with
`fieldnames=CSV_FIELDS`, `extrasaction="ignore"`) -/

/-- `CSV_FIELDS` (lines 47-51). -/
def CSV_FIELDS : List String :=
  ["txn_id", "value_date", "post_date", "details", "ref_no",
   "debit", "credit", "balance", "txn_type", "account_source",
   "imported_at", "hash"]

/-- QUOTE_MINIMAL: a field is quoted when it contains the delimiter,
the quote character, or a line-terminator character. -/
def csvNeedsQuote (s : String) : Bool :=
  s.data.any (fun c => c = ',' || c = '"' || c = '\r' || c = '\n')

/-- Quote a CSV field, doubling embedded quote characters. -/
def csvQuote (s : String) : String :=
  "\"" ++ String.mk ((s.data.map (fun c => if c = '"' then ['"', '"'] else [c])).flatten) ++ "\""

/-- Render one CSV field. -/
def csvField (s : String) : String := if csvNeedsQuote s then csvQuote s else s

/-- The `csv` writer value conversion: ints via `str`, `None`
(an absent key, via `DictWriter`'s default `restval`) as empty. -/
def pyStrOfVal : PyVal → String
  | PyVal.int n => toString n
  | PyVal.str s => s
  | PyVal.none => ""

/-- The twelve `CSV_FIELDS` values of a record, in header order
(`extrasaction="ignore"` drops `_parse_seq`). -/
def recFields (t : Rec) : List String :=
  [pyStrOfVal t.txn_id, t.value_date, t.post_date, t.details, t.ref_no, t.debit,
   t.credit, t.balance, t.txn_type, t.account_source, t.imported_at.getD "", t.hash.getD ""]

/-- One CSV line with the default `\r\n` terminator. -/
def csvLine (fields : List String) : String :=
  String.intercalate "," (fields.map csvField) ++ "\r\n"

/-- The persisted bytes of a ledger: header line then one line per
record. -/
def csvRender (txns : List Rec) : String :=
  csvLine CSV_FIELDS ++ String.join (txns.map (fun t => csvLine (recFields t)))

/-! ## Atomic persistence (`write_master_csv` lines 263-279) -/

/-- The files `write_master_csv` touches: the master CSV and the
`mkstemp` staging file, each `Option.none` when absent. -/
structure FileSys where
  target : Option String
  tmp : Option String
deriving DecidableEq, Repr

/-- Fault injection for `write_master_csv`: no fault, an exception
while writing rows into the staging file, or an exception during the
`Path.replace` rename. -/
inductive WriteFault
  | noFault
  | failDuringWrite
  | failDuringReplace
deriving DecidableEq, Repr

/-- `write_master_csv` (lines 263-279) on the file state: sort and
re-id, create a staging file in the target directory, write the full
CSV into it, and rename it over the target; on any exception the
`except BaseException` handler unlinks the staging file and
re-raises.  Returns the resulting file state and `some` error message
when the exception propagates. -/
def write_master_csv (txns : List Rec) (fault : WriteFault) (fs : FileSys) :
    FileSys × Option String :=
  let content := csvRender (write_master_records txns)
  match fault with
  | WriteFault.noFault => ({ target := some content, tmp := Option.none }, Option.none)
  | WriteFault.failDuringWrite => ({ fs with tmp := Option.none }, some "write failed")
  | WriteFault.failDuringReplace => ({ fs with tmp := Option.none }, some "replace failed")

/-! ## Ledger loading (`load_existing_csv` lines 246-260) -/

/-- A parsed CSV file: the header line and the data rows, as the
`csv` module tokenises them. -/
structure CsvFile where
  header : List String
  rows : List (List String)
deriving DecidableEq, Repr

/-- `csv.DictReader` row lookup: the value under `key` is the cell at
the last position of `key` in the header (later duplicate header
names overwrite earlier ones in `dict(zip(...))`), with `restval
None` for rows shorter than the header. -/
def dictRowLookup (header row : List String) (key : String) : Option String :=
  match (((header.enum).filter (fun p => p.2 = key)).map (fun p => p.1)).getLast? with
  | some i => row.get? i
  | Option.none => Option.none

/-- A loaded CSV dict row as a `Rec`: string columns default to empty
(exactly what `DictWriter` later writes for a `None` value), `txn_id`
keeps its string form for the `sort_key` fallback, `imported_at` and
`hash` keep their optionality, and there is no `_parse_seq`. -/
def recOfCsvRow (header row : List String) : Rec :=
  { value_date := (dictRowLookup header row "value_date").getD ""
    post_date := (dictRowLookup header row "post_date").getD ""
    details := (dictRowLookup header row "details").getD ""
    ref_no := (dictRowLookup header row "ref_no").getD ""
    debit := (dictRowLookup header row "debit").getD ""
    credit := (dictRowLookup header row "credit").getD ""
    balance := (dictRowLookup header row "balance").getD ""
    txn_type := (dictRowLookup header row "txn_type").getD ""
    account_source := (dictRowLookup header row "account_source").getD ""
    imported_at := dictRowLookup header row "imported_at"
    hash := dictRowLookup header row "hash"
    txn_id :=
      match dictRowLookup header row "txn_id" with
      | some s => PyVal.str s
      | Option.none => PyVal.none
    parse_seq := Option.none }

/-- `load_existing_csv` (lines 246-260).  A missing file yields the
empty ledger.  `DictReader` skips blank rows; when at least one data
row exists, every `CSV_FIELDS` column must occur in the header
(`rows[0].keys()` is exactly the header's key set), else the schema
`RuntimeError` is raised.  The fingerprint set collects the non-empty
`hash` values. -/
def load_existing_csv (file : Option CsvFile) : Except String (List Rec × List String) :=
  match file with
  | Option.none => Except.ok ([], [])
  | some f =>
    let rows := f.rows.filter (fun r => !r.isEmpty)
    match rows with
    | [] => Except.ok ([], [])
    | _ :: _ =>
      let missing := CSV_FIELDS.filter (fun c => !f.header.contains c)
      if !missing.isEmpty then
        Except.error ("Master CSV is missing columns: " ++ String.intercalate ", " missing ++
          "\n  Delete the CSV and re-run to regenerate.")
      else
        Except.ok (rows.map (recOfCsvRow f.header),
          rows.filterMap (fun r =>
            match dictRowLookup f.header r "hash" with
            | some s => if s = "" then Option.none else some s
            | Option.none => Option.none))

/-! ## The empty-ledger pipeline of `main` (lines 293-360) -/

/-- One source document as `main` sees it: a path, the outcome of
`pdfplumber.open` (`some e` models a raised exception with text `e`),
and the decrypted document. -/
structure DocInput where
  path : String
  openExc : Option String
  doc : PdfDoc
deriving DecidableEq, Repr

/-- The final merged ledger a merge produces: when nothing new was
accepted, `write_master_csv` is not called and the ledger is left
exactly as loaded. -/
def merged_ledger (existing : List Rec) (st : MergeState) : List Rec :=
  if st.new_txns.isEmpty then existing else write_master_records (existing ++ st.new_txns)

/-- `main` starting from an empty ledger (no master CSV):
`existing = []`, `existing_hashes = {}`, `seq_offset = 0`.  Each
document that parses merges its records; parse failures are caught
and skipped.  The result is the persisted master CSV bytes, `none`
when nothing new was found (no file is written). -/
def run_main_empty (now : String) (docs : List DocInput) : Option String :=
  let final := docs.foldl
    (fun st d =>
      match parse_pdf d.path d.openExc d.doc with
      | Except.error _ => st
      | Except.ok r => r.1.foldl (merge_step now 0) st)
    ⟨[], [], 0⟩
  if final.new_txns.isEmpty then Option.none
  else some (csvRender (write_master_records final.new_txns))

/-! ## Shared helper lemmas -/

/-- Substring containment is preserved by prepending text. -/
theorem containsSeq_append_right (n ys : List Char) (h : containsSeq n ys = true) :
    ∀ xs : List Char, containsSeq n (xs ++ ys) = true
  | [] => h
  | c :: cs => by
    have ih := containsSeq_append_right n ys h cs
    simp only [List.cons_append, containsSeq, Bool.or_eq_true]
    exact Or.inr ih

/-- Each merge iteration counts its record exactly once: as a new
record or in the duplicate counter. -/
theorem foldl_merge_counts (now : String) (off : Int) :
    ∀ (txns : List Rec) (st : MergeState),
      (txns.foldl (merge_step now off) st).new_txns.length +
          (txns.foldl (merge_step now off) st).dup_count =
        st.new_txns.length + st.dup_count + txns.length
  | [], st => by simp
  | t :: rest, st => by
    rw [List.foldl_cons, foldl_merge_counts now off rest]
    unfold merge_step
    dsimp only
    split
    · simp only [List.length_cons]
      omega
    · simp only [List.length_append, List.length_cons, List.length_nil]
      omega

/-- When every incoming fingerprint is already known, the merge loop
only counts duplicates and leaves the state otherwise unchanged. -/
theorem foldl_merge_all_dup (now : String) (off : Int) :
    ∀ (txns : List Rec) (st : MergeState),
      (∀ t ∈ txns, st.hashes.contains (compute_hash t) = true) →
      txns.foldl (merge_step now off) st = { st with dup_count := st.dup_count + txns.length }
  | [], st, _ => by simp
  | t :: rest, st, h => by
    rw [List.foldl_cons]
    have hstep : merge_step now off st t = { st with dup_count := st.dup_count + 1 } := by
      unfold merge_step
      dsimp only
      rw [h t (List.mem_cons_self t rest)]
      simp
    rw [hstep,
      foldl_merge_all_dup now off rest { st with dup_count := st.dup_count + 1 }
        (fun t' ht' => h t' (List.mem_cons_of_mem _ ht'))]
    simp only [List.length_cons]
    congr 1
    omega

/-! ## Claims -/

/-- C1: the fingerprint is the first 32 hex characters of the SHA-256
digest of the five financial fields joined by `"|"`, and is therefore
a pure function of those five fields: records agreeing on all five
(whatever their description, timestamp or other fields) have equal
fingerprints. -/
theorem C1_fingerprint_pure :
    (∀ t : Rec,
      compute_hash t = String.mk ((sha256HexChars (utf8Bytes (String.intercalate "|"
        [t.post_date, t.value_date, t.debit, t.credit, t.balance]))).take 32)) ∧
    (∀ t1 t2 : Rec,
      t1.post_date = t2.post_date → t1.value_date = t2.value_date →
      t1.debit = t2.debit → t1.credit = t2.credit → t1.balance = t2.balance →
      compute_hash t1 = compute_hash t2) := by
  constructor
  · intro t
    rfl
  · intro t1 t2 h1 h2 h3 h4 h5
    unfold compute_hash
    rw [h1, h2, h3, h4, h5]

/-- Witness for C1: two records with equal financial fields but
different description, reference, timestamp, id and sequence number
have the same fingerprint. -/
theorem C1_fingerprint_pure_witness :
    compute_hash
        { value_date := "02/01/2024", post_date := "01/01/2024", details := "UPI payment",
          ref_no := "", debit := "100.00", credit := "", balance := "5000.00",
          txn_type := "debit", account_source := "sbi_email", imported_at := Option.none,
          hash := Option.none, txn_id := PyVal.none, parse_seq := Option.none } =
      compute_hash
        { value_date := "02/01/2024", post_date := "01/01/2024", details := "ATM withdrawal",
          ref_no := "9999999999", debit := "100.00", credit := "", balance := "5000.00",
          txn_type := "debit", account_source := "sbi_email",
          imported_at := some "2024-05-05T00:00:00.000Z", hash := some "stale",
          txn_id := PyVal.int 7, parse_seq := some 3 } :=
  C1_fingerprint_pure.2 _ _ rfl rfl rfl rfl rfl

/-- C2 counterexample: a row with a valid date, absent debit and
credit, and a parseable balance is emitted with both debit and credit
empty, so not every emitted record has exactly one of debit and
credit non-empty. -/
theorem C2_counterexample :
    (processRow [some "01/01/2024", some "02/01/2024", some "d", some "",
        some "-", some "-", some "5000.00"]).map Rec.debit = some "" ∧
    (processRow [some "01/01/2024", some "02/01/2024", some "d", some "",
        some "-", some "-", some "5000.00"]).map Rec.credit = some "" ∧
    (processRow [some "01/01/2024", some "02/01/2024", some "d", some "",
        some "-", some "-", some "5000.00"]).isSome = true := by
  decide

/-- C2 (amended): every emitted record has at least one of debit,
credit, balance non-empty, and a row whose debit, credit and balance
all normalise to absent is discarded rather than emitted. -/
theorem C2_amended_movement_or_balance (row : List (Option String)) :
    (∀ r : Rec, processRow row = some r → ¬(r.debit = "" ∧ r.credit = "" ∧ r.balance = "")) ∧
    (parse_amount_cell (row.getD 4 Option.none) = "" →
     parse_amount_cell (row.getD 5 Option.none) = "" →
     parse_amount_cell (row.getD 6 Option.none) = "" →
     processRow row = Option.none) := by
  constructor
  · intro r hr
    unfold processRow at hr
    split at hr
    · exact Option.noConfusion hr
    split at hr
    · exact Option.noConfusion hr
    split at hr
    · exact Option.noConfusion hr
    dsimp only at hr
    split at hr
    · exact Option.noConfusion hr
    · rename_i hguard
      injection hr with hr'
      subst hr'
      simp only [Bool.and_eq_true, decide_eq_true_eq] at hguard
      intro hc
      exact hguard ⟨⟨hc.1, hc.2.1⟩, hc.2.2⟩
  · intro h4 h5 h6
    unfold processRow
    split
    · rfl
    split
    · rfl
    split
    · rfl
    dsimp only
    split
    · rfl
    · rename_i hguard
      exfalso
      simp only [Bool.and_eq_true, decide_eq_true_eq] at hguard
      exact hguard ⟨⟨h4, h5⟩, h6⟩

/-- Witness for the amended C2 at a concrete discarded row (valid
date, every amount cell a lone dash). -/
theorem C2_amended_movement_or_balance_witness :
    processRow [some "01/01/2024", some "02/01/2024", some "d", some "",
        some "-", some "-", some "-"] = Option.none :=
  (C2_amended_movement_or_balance
      [some "01/01/2024", some "02/01/2024", some "d", some "",
        some "-", some "-", some "-"]).2
    (by decide) (by decide) (by decide)

/-- C3: when every extracted fingerprint is already in the known set
(in particular after a previous merge of the same document), the
merge accepts nothing, counts every record as a duplicate, and the
ledger is left exactly as loaded (no write happens). -/
theorem C3_merge_idempotent (now : String) (off : Int) (existing : List Rec)
    (hashes : List String) (txns : List Rec)
    (h : ∀ t ∈ txns, hashes.contains (compute_hash t) = true) :
    (merge_new now off hashes txns).new_txns = [] ∧
    (merge_new now off hashes txns).dup_count = txns.length ∧
    merged_ledger existing (merge_new now off hashes txns) = existing := by
  have hfold := foldl_merge_all_dup now off txns ⟨[], hashes, 0⟩ h
  unfold merge_new
  rw [hfold]
  refine ⟨rfl, by simp, ?_⟩
  unfold merged_ledger
  simp

/-- Witness for C3: re-merging a one-record document against its own
fingerprint leaves the one-record ledger unchanged. -/
theorem C3_merge_idempotent_witness :
    (merge_new "2024-01-01T00:00:00.000Z" 1
        [compute_hash
          { value_date := "02/01/2024", post_date := "01/01/2024", details := "d",
            ref_no := "", debit := "100.00", credit := "", balance := "5000.00",
            txn_type := "debit", account_source := "sbi_email", imported_at := Option.none,
            hash := Option.none, txn_id := PyVal.none, parse_seq := some 0 }]
        [{ value_date := "02/01/2024", post_date := "01/01/2024", details := "d",
           ref_no := "", debit := "100.00", credit := "", balance := "5000.00",
           txn_type := "debit", account_source := "sbi_email", imported_at := Option.none,
           hash := Option.none, txn_id := PyVal.none, parse_seq := some 0 }]).new_txns = [] ∧
    (merge_new "2024-01-01T00:00:00.000Z" 1
        [compute_hash
          { value_date := "02/01/2024", post_date := "01/01/2024", details := "d",
            ref_no := "", debit := "100.00", credit := "", balance := "5000.00",
            txn_type := "debit", account_source := "sbi_email", imported_at := Option.none,
            hash := Option.none, txn_id := PyVal.none, parse_seq := some 0 }]
        [{ value_date := "02/01/2024", post_date := "01/01/2024", details := "d",
           ref_no := "", debit := "100.00", credit := "", balance := "5000.00",
           txn_type := "debit", account_source := "sbi_email", imported_at := Option.none,
           hash := Option.none, txn_id := PyVal.none, parse_seq := some 0 }]).dup_count = 1 ∧
    merged_ledger
        [{ value_date := "02/01/2024", post_date := "01/01/2024", details := "d",
           ref_no := "", debit := "100.00", credit := "", balance := "5000.00",
           txn_type := "debit", account_source := "sbi_email",
           imported_at := some "2024-01-01T00:00:00.000Z", hash := Option.none,
           txn_id := PyVal.int 1, parse_seq := some 0 }]
        (merge_new "2024-01-01T00:00:00.000Z" 1
          [compute_hash
            { value_date := "02/01/2024", post_date := "01/01/2024", details := "d",
              ref_no := "", debit := "100.00", credit := "", balance := "5000.00",
              txn_type := "debit", account_source := "sbi_email", imported_at := Option.none,
              hash := Option.none, txn_id := PyVal.none, parse_seq := some 0 }]
          [{ value_date := "02/01/2024", post_date := "01/01/2024", details := "d",
             ref_no := "", debit := "100.00", credit := "", balance := "5000.00",
             txn_type := "debit", account_source := "sbi_email", imported_at := Option.none,
             hash := Option.none, txn_id := PyVal.none, parse_seq := some 0 }]) =
      [{ value_date := "02/01/2024", post_date := "01/01/2024", details := "d",
         ref_no := "", debit := "100.00", credit := "", balance := "5000.00",
         txn_type := "debit", account_source := "sbi_email",
         imported_at := some "2024-01-01T00:00:00.000Z", hash := Option.none,
         txn_id := PyVal.int 1, parse_seq := some 0 }] :=
  C3_merge_idempotent _ _ _ _ _ (by
    intro t ht
    simp only [List.mem_singleton] at ht
    subst ht
    simp)

/-- C5: a merge counts every extracted record exactly once, as
accepted-new or as duplicate, so the extracted length is the sum of
the two counts. -/
theorem C5_no_silent_loss (now : String) (off : Int) (hashes : List String) (txns : List Rec) :
    (merge_new now off hashes txns).new_txns.length +
        (merge_new now off hashes txns).dup_count = txns.length := by
  unfold merge_new
  rw [foldl_merge_counts]
  simp

/-- C6: the save either succeeds completely — the target holds the
full rendered ledger and the staging file is gone — or fails with the
error propagated, the staging file removed, and the previously
persisted target byte-identical to before the attempt. -/
theorem C6_atomic_save (txns : List Rec) (fault : WriteFault) (fs : FileSys) :
    (fault ≠ WriteFault.noFault →
      (write_master_csv txns fault fs).2.isSome = true ∧
      (write_master_csv txns fault fs).1.target = fs.target ∧
      (write_master_csv txns fault fs).1.tmp = Option.none) ∧
    (fault = WriteFault.noFault →
      (write_master_csv txns fault fs).2 = Option.none ∧
      (write_master_csv txns fault fs).1.target =
        some (csvRender (write_master_records txns)) ∧
      (write_master_csv txns fault fs).1.tmp = Option.none) := by
  cases fault <;> simp [write_master_csv]

/-- Witness for C6 at a concrete failing write over a previously
persisted ledger. -/
theorem C6_atomic_save_witness :
    (write_master_csv [] WriteFault.failDuringWrite
        { target := some "old ledger bytes", tmp := Option.none }).2.isSome = true ∧
    (write_master_csv [] WriteFault.failDuringWrite
        { target := some "old ledger bytes", tmp := Option.none }).1.target =
      ({ target := some "old ledger bytes", tmp := Option.none } : FileSys).target ∧
    (write_master_csv [] WriteFault.failDuringWrite
        { target := some "old ledger bytes", tmp := Option.none }).1.tmp = Option.none :=
  (C6_atomic_save [] WriteFault.failDuringWrite
      { target := some "old ledger bytes", tmp := Option.none }).1 (by decide)

/-- C9: the required-column check of `load_existing_csv` runs only
when at least one data row exists; a file with zero data rows loads
as the empty ledger whatever its header holds. -/
theorem C9_schema_check_skipped_when_empty (f : CsvFile) (h : f.rows = []) :
    load_existing_csv (some f) = Except.ok ([], []) := by
  simp [load_existing_csv, h]

/-- Witness for C9 at a header that misses every required column. -/
theorem C9_schema_check_skipped_when_empty_witness :
    load_existing_csv (some { header := ["garbage", "columns"], rows := [] }) =
      Except.ok ([], []) :=
  C9_schema_check_skipped_when_empty { header := ["garbage", "columns"], rows := [] } rfl

/-- C10: the derived direction gives debit precedence — `txn_type` is
`"debit"` whenever the normalised debit is non-empty, else
`"credit"` whenever credit is non-empty, else empty (balance-only
rows). -/
theorem C10_txn_type_debit_precedence (row : List (Option String)) (r : Rec)
    (h : processRow row = some r) :
    r.txn_type = if r.debit ≠ "" then "debit" else if r.credit ≠ "" then "credit" else "" := by
  unfold processRow at h
  split at h
  · exact Option.noConfusion h
  split at h
  · exact Option.noConfusion h
  split at h
  · exact Option.noConfusion h
  dsimp only at h
  split at h
  · exact Option.noConfusion h
  · injection h with h'
    subst h'
    rfl

/-- Witness for C10 at a row carrying both a debit and a credit
amount: the emitted type is `"debit"`. -/
theorem C10_txn_type_debit_precedence_witness :
    ({ value_date := "02/01/2024", post_date := "01/01/2024", details := "d", ref_no := "",
       debit := "100.00", credit := "50.00", balance := "5000.00", txn_type := "debit",
       account_source := "sbi_email", imported_at := Option.none, hash := Option.none,
       txn_id := PyVal.none, parse_seq := Option.none } : Rec).txn_type =
      if ({ value_date := "02/01/2024", post_date := "01/01/2024", details := "d", ref_no := "",
            debit := "100.00", credit := "50.00", balance := "5000.00", txn_type := "debit",
            account_source := "sbi_email", imported_at := Option.none, hash := Option.none,
            txn_id := PyVal.none, parse_seq := Option.none } : Rec).debit ≠ "" then "debit"
      else if ({ value_date := "02/01/2024", post_date := "01/01/2024", details := "d",
                 ref_no := "", debit := "100.00", credit := "50.00", balance := "5000.00",
                 txn_type := "debit", account_source := "sbi_email", imported_at := Option.none,
                 hash := Option.none, txn_id := PyVal.none,
                 parse_seq := Option.none } : Rec).credit ≠ "" then "credit"
      else "" :=
  C10_txn_type_debit_precedence
    [some "01/01/2024", some "02/01/2024", some "d", some "",
      some "100.00", some "50.00", some "5,000.00"] _ (by decide)

/-- C7: a rejected decryption credential makes `parse_pdf` fail with
the credential error whose message tells the caller to check the
configured password; the result does not depend on the document
contents (no page-count or issuer check runs), and the failure is
distinct from the empty-document and format-mismatch failures. -/
theorem C7_auth_failure (path e : String) (doc doc' : PdfDoc) (hp : passwordLike e = true) :
    parse_pdf path (some e) doc = Except.error (PdfErr.auth (authMsg path)) ∧
    parse_pdf path (some e) doc = parse_pdf path (some e) doc' ∧
    containsSeq "Check PDF_PASSWORD in your .env file.".data (authMsg path).data = true ∧
    (∀ m, PdfErr.auth (authMsg path) ≠ PdfErr.emptyDoc m) ∧
    (∀ m, PdfErr.auth (authMsg path) ≠ PdfErr.formatMismatch m) := by
  have h1 : ∀ d : PdfDoc, parse_pdf path (some e) d = Except.error (PdfErr.auth (authMsg path)) := by
    intro d
    simp [parse_pdf, hp]
  refine ⟨h1 doc, (h1 doc).trans (h1 doc').symm, ?_, ?_, ?_⟩
  · unfold authMsg
    rw [String.data_append, String.data_append]
    exact containsSeq_append_right _ _ (by decide) _
  · intro m hm
    exact PdfErr.noConfusion hm
  · intro m hm
    exact PdfErr.noConfusion hm

/-- Witness for C7 at a concrete password-like open failure and two
different documents. -/
theorem C7_auth_failure_witness :
    parse_pdf "stmt.pdf" (some "File has not been decrypted") { pages := [] } =
      Except.error (PdfErr.auth (authMsg "stmt.pdf")) ∧
    parse_pdf "stmt.pdf" (some "File has not been decrypted") { pages := [] } =
      parse_pdf "stmt.pdf" (some "File has not been decrypted")
        { pages := [{ text := some "SBI", tables := [] }] } ∧
    containsSeq "Check PDF_PASSWORD in your .env file.".data (authMsg "stmt.pdf").data = true ∧
    (∀ m, PdfErr.auth (authMsg "stmt.pdf") ≠ PdfErr.emptyDoc m) ∧
    (∀ m, PdfErr.auth (authMsg "stmt.pdf") ≠ PdfErr.formatMismatch m) :=
  C7_auth_failure "stmt.pdf" "File has not been decrypted" { pages := [] }
    { pages := [{ text := some "SBI", tables := [] }] } (by decide)

/-- Transitivity of the Python tuple order on sort keys. -/
theorem keyLE_trans : ∀ a b c : Rec, keyLE a b = true → keyLE b c = true → keyLE a c = true := by
  intro a b c hab hbc
  unfold keyLE at *
  simp only [decide_eq_true_eq] at *
  omega

/-- Totality of the Python tuple order on sort keys. -/
theorem keyLE_total : ∀ a b : Rec, (keyLE a b || keyLE b a) = true := by
  intro a b
  unfold keyLE
  simp only [Bool.or_eq_true, decide_eq_true_eq]
  omega

/-- What a true sort-key comparison means. -/
theorem keyLE_elim {a b : Rec} (h : keyLE a b = true) :
    parse_date_for_sort a.post_date < parse_date_for_sort b.post_date ∨
    (parse_date_for_sort a.post_date = parse_date_for_sort b.post_date ∧
      sortSeq a ≤ sortSeq b) := by
  unfold keyLE sort_key at h
  simpa using h

/-- Accumulating a digit list keeps the value below the corresponding
power of ten. -/
theorem foldl_digits_lt :
    ∀ (cs : List Char) (a : Nat), (∀ c ∈ cs, isDig c = true) →
      cs.foldl (fun x c => x * 10 + digVal c) a < (a + 1) * 10 ^ cs.length
  | [], a, _ => by simp
  | c :: cs, a, h => by
    rw [List.foldl_cons]
    have hc := h c (List.mem_cons_self c cs)
    have hd : digVal c ≤ 9 := by
      unfold isDig at hc
      simp only [Bool.and_eq_true, decide_eq_true_eq] at hc
      unfold digVal
      omega
    have ih := foldl_digits_lt cs (a * 10 + digVal c)
      (fun x hx => h x (List.mem_cons_of_mem _ hx))
    calc cs.foldl (fun x c => x * 10 + digVal c) (a * 10 + digVal c)
        < (a * 10 + digVal c + 1) * 10 ^ cs.length := ih
      _ ≤ (a + 1) * 10 * 10 ^ cs.length := Nat.mul_le_mul_right _ (by omega)
      _ = (a + 1) * 10 ^ (c :: cs).length := by rw [List.length_cons, pow_succ]; ring

/-- A day or month field accepted by the `strptime` regex stays below
its bound (for bounds of at least 9, as 31 and 12 are). -/
theorem fieldOk12_val_le (maxV : Nat) (h9 : 9 ≤ maxV) :
    ∀ cs : List Char, fieldOk12 maxV cs = true → digitsVal cs ≤ maxV := by
  intro cs h
  rcases cs with _ | ⟨c1, _ | ⟨c2, _ | ⟨c3, rest⟩⟩⟩
  · exact absurd h (by simp [fieldOk12])
  · unfold fieldOk12 at h
    simp only [Bool.and_eq_true, decide_eq_true_eq] at h
    have : digVal c1 ≤ 9 := by
      unfold isDig at h
      simp only [Bool.and_eq_true, decide_eq_true_eq] at h
      unfold digVal
      omega
    unfold digitsVal
    simp only [List.foldl_cons, List.foldl_nil]
    omega
  · unfold fieldOk12 at h
    simp only [Bool.and_eq_true, decide_eq_true_eq] at h
    unfold digitsVal
    simp only [List.foldl_cons, List.foldl_nil]
    omega
  · exact absurd h (by simp [fieldOk12])

/-- Every parseable date encodes strictly below the
`datetime.max` sentinel. -/
theorem strptimeDMY_key_lt (cs : List Char) (d m y : Nat)
    (h : strptimeDMY cs = some (d, m, y)) : y * 10000 + m * 100 + d < 100000000 := by
  unfold strptimeDMY at h
  split at h
  · rename_i dp mp yp heq
    dsimp only at h
    split at h
    · rename_i hok
      split at h
      · rename_i hcal
        injection h with h'
        injection h' with hd h'
        injection h' with hm hy
        subst hd; subst hm; subst hy
        simp only [Bool.and_eq_true, decide_eq_true_eq] at hok hcal
        have hdle : digitsVal dp ≤ 31 := fieldOk12_val_le 31 (by omega) dp hok.1.1
        have hmle : digitsVal mp ≤ 12 := fieldOk12_val_le 12 (by omega) mp hok.1.2
        have hyle : digitsVal yp < 10000 := by
          have hlen : yp.length = 4 := by
            have := hok.2
            unfold yearFieldOk at this
            simp only [Bool.and_eq_true, decide_eq_true_eq] at this
            exact this.1
          have hall : ∀ c ∈ yp, isDig c = true := by
            have := hok.2
            unfold yearFieldOk at this
            simp only [Bool.and_eq_true, List.all_eq_true, decide_eq_true_eq] at this
            exact this.2
          have := foldl_digits_lt yp 0 hall
          unfold digitsVal
          rw [hlen] at this
          simpa using this
        omega
      · exact Option.noConfusion h
    · exact Option.noConfusion h
  · exact Option.noConfusion h

/-- The date sort key never exceeds the unparseable sentinel. -/
theorem parse_date_for_sort_le (s : String) : parse_date_for_sort s ≤ 100000000 := by
  unfold parse_date_for_sort
  split
  · rename_i d m y h
    exact Nat.le_of_lt (strptimeDMY_key_lt s.data d m y h)
  · exact Nat.le_refl _

/-- A parseable post date sorts strictly before the unparseable
sentinel. -/
theorem parse_date_for_sort_lt (s : String) (d m y : Nat)
    (h : strptimeDMY s.data = some (d, m, y)) : parse_date_for_sort s < 100000000 := by
  unfold parse_date_for_sort
  rw [h]
  exact strptimeDMY_key_lt s.data d m y h

/-- An unparseable post date gets the sentinel key. -/
theorem parse_date_for_sort_of_none (s : String) (h : strptimeDMY s.data = Option.none) :
    parse_date_for_sort s = 100000000 := by
  unfold parse_date_for_sort
  rw [h]

/-- Reassigning ids keeps the list length. -/
theorem assignIdsFrom_length : ∀ (i : Int) (l : List Rec),
    (assignIdsFrom i l).length = l.length
  | _, [] => rfl
  | i, t :: rest => by
    simp only [assignIdsFrom, List.length_cons, assignIdsFrom_length]

/-- Reassigning ids rewrites exactly the `txn_id` field, with
consecutive values. -/
theorem assignIdsFrom_getD : ∀ (i : Int) (l : List Rec) (k : Nat), k < l.length →
    (assignIdsFrom i l).getD k default = { l.getD k default with txn_id := PyVal.int (i + k) }
  | i, t :: rest, 0, _ => by
    simp [assignIdsFrom]
  | i, t :: rest, k + 1, hk => by
    have ih := assignIdsFrom_getD (i + 1) rest k (by simp at hk; omega)
    simp only [assignIdsFrom, List.getD_cons_succ, ih]
    have : i + (1 : Int) + (k : Int) = i + ((k : Int) + 1) := by ring
    rw [this]
    norm_cast

/-- C4: the output of the sort-and-re-identify step is non-decreasing
by parsed post date, every record after an unparseable-date record
also has an unparseable date, records with equal post dates keep
their within-document sequence numbers in non-decreasing order, and
the ledger ids are the dense integers 1..N in that order. -/
theorem C4_sorted_dense_ids (txns : List Rec) :
    (write_master_records txns).length = txns.length ∧
    (∀ i j : Nat, i < j → j < (write_master_records txns).length →
      (parse_date_for_sort (((write_master_records txns).getD i default).post_date) ≤
        parse_date_for_sort (((write_master_records txns).getD j default).post_date)) ∧
      (strptimeDMY (((write_master_records txns).getD i default).post_date).data = Option.none →
        strptimeDMY (((write_master_records txns).getD j default).post_date).data = Option.none) ∧
      (((write_master_records txns).getD i default).post_date =
          ((write_master_records txns).getD j default).post_date →
        ∀ si sj : Int,
          ((write_master_records txns).getD i default).parse_seq = some si →
          ((write_master_records txns).getD j default).parse_seq = some sj → si ≤ sj)) ∧
    (∀ i : Nat, i < (write_master_records txns).length →
      ((write_master_records txns).getD i default).txn_id = PyVal.int (1 + i)) := by
  have hlen : (write_master_records txns).length = txns.length := by
    unfold write_master_records
    rw [assignIdsFrom_length, List.length_mergeSort]
  have hpair := List.pairwise_iff_getElem.mp
    (List.sorted_mergeSort keyLE_trans keyLE_total txns)
  refine ⟨hlen, ?_, ?_⟩
  · intro i j hij hj
    have hjL : j < (txns.mergeSort keyLE).length := by
      unfold write_master_records at hj
      rwa [assignIdsFrom_length] at hj
    have hiL : i < (txns.mergeSort keyLE).length := Nat.lt_trans hij hjL
    have hgi : (write_master_records txns).getD i default =
        { (txns.mergeSort keyLE).getD i default with txn_id := PyVal.int (1 + i) } :=
      assignIdsFrom_getD 1 _ i hiL
    have hgj : (write_master_records txns).getD j default =
        { (txns.mergeSort keyLE).getD j default with txn_id := PyVal.int (1 + j) } :=
      assignIdsFrom_getD 1 _ j hjL
    have hkey := keyLE_elim (hpair i j hiL hjL hij)
    rw [List.getD_eq_getElem _ _ hiL] at hgi
    rw [List.getD_eq_getElem _ _ hjL] at hgj
    rw [hgi, hgj]
    dsimp only
    refine ⟨?_, ?_, ?_⟩
    · omega
    · intro hnone
      have h1 : parse_date_for_sort ((txns.mergeSort keyLE)[i]).post_date = 100000000 :=
        parse_date_for_sort_of_none _ hnone
      rcases hcase : strptimeDMY (((txns.mergeSort keyLE)[j]).post_date).data with _ | v
      · rfl
      · exfalso
        rcases v with ⟨d, m, y⟩
        have h2 := parse_date_for_sort_lt ((txns.mergeSort keyLE)[j]).post_date d m y hcase
        omega
    · intro heqpd si sj hsi hsj
      have hdeq : parse_date_for_sort ((txns.mergeSort keyLE)[i]).post_date =
          parse_date_for_sort ((txns.mergeSort keyLE)[j]).post_date := by rw [heqpd]
      have hsseqi : sortSeq ((txns.mergeSort keyLE)[i]) = si := by
        unfold sortSeq
        rw [hsi]
      have hsseqj : sortSeq ((txns.mergeSort keyLE)[j]) = sj := by
        unfold sortSeq
        rw [hsj]
      rw [hsseqi, hsseqj] at hkey
      omega
  · intro i hi
    have hiL : i < (txns.mergeSort keyLE).length := by
      unfold write_master_records at hi
      rwa [assignIdsFrom_length] at hi
    have := assignIdsFrom_getD 1 (txns.mergeSort keyLE) i hiL
    unfold write_master_records
    rw [this]

/-- Witness for C4 at a two-record list given in reverse date order
with sequence numbers 0 and 1. -/
theorem C4_sorted_dense_ids_witness :
    (parse_date_for_sort (((write_master_records
        [{ (default : Rec) with post_date := "02/01/2024", parse_seq := some 0 },
         { (default : Rec) with post_date := "01/01/2024", parse_seq := some 1 }]).getD 0
          default).post_date) ≤
      parse_date_for_sort (((write_master_records
        [{ (default : Rec) with post_date := "02/01/2024", parse_seq := some 0 },
         { (default : Rec) with post_date := "01/01/2024", parse_seq := some 1 }]).getD 1
          default).post_date)) ∧
    (((write_master_records
        [{ (default : Rec) with post_date := "02/01/2024", parse_seq := some 0 },
         { (default : Rec) with post_date := "01/01/2024", parse_seq := some 1 }]).getD 0
          default).txn_id = PyVal.int (1 + 0)) := by
  have h := C4_sorted_dense_ids
    [{ (default : Rec) with post_date := "02/01/2024", parse_seq := some 0 },
     { (default : Rec) with post_date := "01/01/2024", parse_seq := some 1 }]
  have hj : 1 < (write_master_records
      [{ (default : Rec) with post_date := "02/01/2024", parse_seq := some 0 },
       { (default : Rec) with post_date := "01/01/2024", parse_seq := some 1 }]).length := by
    rw [h.1]
    decide
  exact ⟨(h.2.1 0 1 (by decide) hj).1, h.2.2 0 (Nat.lt_trans (by decide) hj)⟩

/-- Sorting and re-identifying a one-record ledger only stamps
`txn_id = 1`. -/
theorem write_master_records_singleton (t : Rec) :
    write_master_records [t] = [{ t with txn_id := PyVal.int 1 }] := by
  unfold write_master_records
  rw [List.mergeSort_singleton]
  rfl

/-- Merging a single fresh record into an empty ledger accepts it,
stamped with its hash and timestamp. -/
theorem merge_single_fresh (now : String) (t : Rec) :
    List.foldl (merge_step now 0) ⟨[], [], 0⟩ [t] =
      { new_txns :=
          [{ t with
              hash := some (compute_hash t)
              imported_at := some now
              txn_id := PyVal.int 0
              parse_seq := t.parse_seq.map (· + 0) }]
        hashes := [compute_hash t]
        dup_count := 0 } := by
  simp [merge_step]

/-- C8 (amended): the empty-ledger pipeline is a pure function of the
source documents and the observed import timestamp, so two runs on
identical documents that observe the same clock value produce
byte-identical persisted output. -/
theorem C8_deterministic_given_timestamp (now1 now2 : String)
    (docs1 docs2 : List DocInput) (h1 : now1 = now2) (h2 : docs1 = docs2) :
    run_main_empty now1 docs1 = run_main_empty now2 docs2 := by
  rw [h1, h2]

/-- Witness for the amended C8 at a concrete document and
timestamp. -/
theorem C8_deterministic_given_timestamp_witness :
    run_main_empty "2024-01-01T00:00:00.000Z"
        [{ path := "a.pdf", openExc := Option.none,
           doc := { pages := [{ text := some "SBI statement",
                                tables := [[[some "01/01/2024", some "01/01/2024", some "desc",
                                             some "", some "100.00", some "-",
                                             some "5000.00"]]] }] } }] =
      run_main_empty "2024-01-01T00:00:00.000Z"
        [{ path := "a.pdf", openExc := Option.none,
           doc := { pages := [{ text := some "SBI statement",
                                tables := [[[some "01/01/2024", some "01/01/2024", some "desc",
                                             some "", some "100.00", some "-",
                                             some "5000.00"]]] }] } }] :=
  C8_deterministic_given_timestamp _ _ _ _ rfl rfl

/-- C8 counterexample: two runs on the identical one-transaction
document, both from an empty ledger but at different wall-clock
instants, persist different bytes — the `imported_at` column records
the clock, so the claim as stated (byte-identical output for
identical source documents alone) fails. -/
theorem C8_counterexample :
    run_main_empty "2024-01-01T00:00:00.000Z"
        [{ path := "a.pdf", openExc := Option.none,
           doc := { pages := [{ text := some "SBI statement",
                                tables := [[[some "01/01/2024", some "01/01/2024", some "desc",
                                             some "", some "100.00", some "-",
                                             some "5000.00"]]] }] } }] ≠
      run_main_empty "2024-02-02T00:00:00.000Z"
        [{ path := "a.pdf", openExc := Option.none,
           doc := { pages := [{ text := some "SBI statement",
                                tables := [[[some "01/01/2024", some "01/01/2024", some "desc",
                                             some "", some "100.00", some "-",
                                             some "5000.00"]]] }] } }] := by
  have hparse : parse_pdf "a.pdf" Option.none
      { pages := [{ text := some "SBI statement",
                    tables := [[[some "01/01/2024", some "01/01/2024", some "desc",
                                 some "", some "100.00", some "-", some "5000.00"]]] }] } =
      Except.ok ([{ value_date := "01/01/2024", post_date := "01/01/2024", details := "desc",
                    ref_no := "", debit := "100.00", credit := "", balance := "5000.00",
                    txn_type := "debit", account_source := "sbi_email",
                    imported_at := Option.none, hash := Option.none, txn_id := PyVal.none,
                    parse_seq := some 0 }], Option.none, Option.none, 1) := by
    rfl
  have hrun : ∀ now : String,
      run_main_empty now
          [{ path := "a.pdf", openExc := Option.none,
             doc := { pages := [{ text := some "SBI statement",
                                  tables := [[[some "01/01/2024", some "01/01/2024", some "desc",
                                               some "", some "100.00", some "-",
                                               some "5000.00"]]] }] } }] =
        some (csvRender
          [{ value_date := "01/01/2024", post_date := "01/01/2024", details := "desc",
             ref_no := "", debit := "100.00", credit := "", balance := "5000.00",
             txn_type := "debit", account_source := "sbi_email", imported_at := some now,
             hash := some (compute_hash
               { value_date := "01/01/2024", post_date := "01/01/2024", details := "desc",
                 ref_no := "", debit := "100.00", credit := "", balance := "5000.00",
                 txn_type := "debit", account_source := "sbi_email",
                 imported_at := Option.none, hash := Option.none, txn_id := PyVal.none,
                 parse_seq := some 0 }),
             txn_id := PyVal.int 1, parse_seq := some 0 }]) := by
    intro now
    unfold run_main_empty
    simp only [List.foldl_cons, List.foldl_nil]
    rw [hparse]
    dsimp only
    rw [merge_single_fresh]
    dsimp only [List.isEmpty_cons]
    rw [write_master_records_singleton]
    simp
  intro hcontra
  rw [hrun "2024-01-01T00:00:00.000Z", hrun "2024-02-02T00:00:00.000Z"] at hcontra
  rw [show compute_hash
      { value_date := "01/01/2024", post_date := "01/01/2024", details := "desc",
        ref_no := "", debit := "100.00", credit := "", balance := "5000.00",
        txn_type := "debit", account_source := "sbi_email", imported_at := Option.none,
        hash := Option.none, txn_id := PyVal.none, parse_seq := some 0 } =
      "35eec9d7261db55fc2cf88e7a07999e3" from by decide] at hcontra
  exact absurd hcontra (by decide)
